import Mathlib

/-!
Shallow embedding of the orchestration layer of the Expense Management
AI-services gateway (src/ai-services/main.py) and proofs about the claims
of its specification.

The only source file of the repository is `main.py`.  The capability
providers (`services/*`), the pydantic models (`models/*`) and the
middleware are imported by `main.py` but are not part of the sources;
where a claim depends on them they are modelled from the spec and marked
as such in their doc comments.  Everything else is translated directly
from `main.py`: endpoints become pure functions over explicit inputs,
capability providers become oracle parameters, filesystem and websocket
effects become explicit event traces, and the asyncio background tasks
of the retraining endpoint become an explicit interleaving semantics.
-/

namespace ExpenseAI

/-- Modelled from the spec: `ExpenseData` lives in `models/expense_models.py`,
which is not under src/.  Spec §3 (`ExpenseRecord`): description, amount,
currency, vendor, date, submitter.  Only its identity matters to the claims. -/
structure ExpenseData where
  description : String
  amount : Int
  currency : String
  vendor : String
  date : String
  submitter : String
  deriving DecidableEq, Repr

/-- Modelled from the spec: `CategoryPrediction` lives in
`models/expense_models.py`, not under src/.  Spec §3: predicted category and
a confidence value; produced by the categorization capability, never mutated. -/
structure CategoryPrediction where
  predicted_category : String
  confidence : Int
  deriving DecidableEq, Repr

/-! ## Health check (`health_check`, main.py lines 67-82)

The handler body builds a literal dictionary.  The state of the six
capability-provider singletons (main.py lines 59-64) is passed explicitly,
as a structure of provider states, so that independence from it is a
provable statement; the source body never reads any of them. -/

/-- The mutable state of the six capability-provider singletons created at
startup (main.py lines 59-64).  The payload of each provider is opaque to
the orchestration layer; a `Bool` per provider (up/down) suffices to state
that `health_check` ignores it. -/
structure ServicesState where
  categorization : Bool
  fraud_detection : Bool
  predictive_analytics : Bool
  receipt_validation : Bool
  auto_tagging : Bool
  ocr : Bool
  deriving DecidableEq, Repr

/-- The response dictionary of the `/health` endpoint. -/
structure HealthResponse where
  status : String
  timestamp : String
  version : String
  services : List (String × String)
  deriving DecidableEq, Repr

/-- `health_check` (main.py lines 67-82): returns the literal dictionary
`{"status": "healthy", "timestamp": now, "version": "1.0.0", "services":
{six names, each "active"}}`.  The provider state `svc` and the clock `now`
are the only ambient inputs of the handler; the body reads only the clock. -/
def health_check (_svc : ServicesState) (now : String) : HealthResponse :=
  { status := "healthy"
  , timestamp := now
  , version := "1.0.0"
  , services :=
      [ ("categorization", "active")
      , ("fraud_detection", "active")
      , ("predictive_analytics", "active")
      , ("receipt_validation", "active")
      , ("auto_tagging", "active")
      , ("ocr", "active") ] }

/-! ## Budget forecast (`predict_budget`, main.py lines 167-188)

The handler declares `prediction_months: int = Field(default=3, ge=1, le=12)`;
the web runtime enforces the declared range when it parses the request,
before the handler body runs, and the body's only capability call is
`predictive_analytics_service.predict_budget(historical_data,
prediction_months)`.  The capability provider is an oracle parameter `cap`;
the second component of the result records every capability invocation made. -/

/-- A record of one capability invocation made while serving a
budget-forecast request: the history and horizon passed to
`predictive_analytics_service.predict_budget`. -/
structure ForecastCall where
  history : List ExpenseData
  months : Int
  deriving DecidableEq, Repr

/-- `predict_budget` (main.py lines 167-188) together with the request-side
range check `ge=1, le=12` declared on `prediction_months`.  Out-of-range
horizons are rejected as an invalid request with no capability invocation;
in-range horizons invoke the forecasting capability once and return its
result unchanged. -/
def predict_budget (cap : List ExpenseData → Int → Int)
    (historical_data : List ExpenseData) (prediction_months : Int) :
    Except String Int × List ForecastCall :=
  if 1 ≤ prediction_months ∧ prediction_months ≤ 12 then
    (Except.ok (cap historical_data prediction_months),
     [⟨historical_data, prediction_months⟩])
  else
    (Except.error "InvalidRequest", [])

/-! ## Batch categorization (`batch_categorize_expenses`, main.py lines 107-121)

The handler delegates the whole batch to
`categorization_service.batch_predict(expenses)` and returns its result
unchanged; the surrounding try/except turns an exception escaping the
service into an HTTP 500 for the whole request.  `batch_predict` lives in
`services/categorization_service.py`, which is not under src/, so the
dispatch it performs is modelled from the spec. -/

/-- The per-item outcome of one dispatched capability call (spec §4.2, §7):
a result, an isolated `CapabilityFailure`, or a `CapabilityTimeout`. -/
inductive ItemResult where
  | ok (c : CategoryPrediction)
  | capabilityFailure
  | capabilityTimeout
  deriving DecidableEq, Repr

/-- The behaviour of the per-item capability calls of one batch: the outcome
of the call dispatched for the item at a given input position.  An oracle
indexed by position (not only by value) so that changing one item's outcome
is expressible independently of its siblings. -/
def ItemBehaviour : Type := Nat → ExpenseData → ItemResult

/-- Modelled from the spec: the dispatch loop inside
`CategorizationService.batch_predict` (`services/categorization_service.py`
is not under src/).  Spec §4.2: `dispatch` maps an ordered sequence of
operations to the ordered sequence of their per-item outcomes, one entry per
input item, each item executed independently.  `k` is the position of the
first remaining item. -/
def dispatchFrom (b : ItemBehaviour) : Nat → List ExpenseData → List ItemResult
  | _, [] => []
  | k, x :: xs => b k x :: dispatchFrom b (k + 1) xs

/-- Modelled from the spec: `CategorizationService.batch_predict` dispatches
every item of the batch starting at position 0 and returns the aggregated
per-item outcomes (spec §4.2); per-item failures are captured in the result
list, not raised. -/
def batch_predict (b : ItemBehaviour) (expenses : List ExpenseData) :
    List ItemResult :=
  dispatchFrom b 0 expenses

/-- `batch_categorize_expenses` (main.py lines 107-121): awaits
`batch_predict` and returns its result unchanged; since per-item failures
are part of the returned list rather than exceptions, the except branch
(HTTP 500) is not taken and the handler is a pass-through. -/
def batch_categorize_expenses (b : ItemBehaviour) (expenses : List ExpenseData) :
    Except Nat (List ItemResult) :=
  Except.ok (batch_predict b expenses)

/-- Every dispatched batch has exactly as many outcome entries as input
items. -/
theorem dispatchFrom_length (b : ItemBehaviour) (k : Nat)
    (xs : List ExpenseData) : (dispatchFrom b k xs).length = xs.length := by
  induction xs generalizing k with
  | nil => rfl
  | cons x xs ih => simp [dispatchFrom, ih]

/-- The outcome at position `i` of a dispatched batch is the behaviour of the
item at position `i` of the input. -/
theorem dispatchFrom_getElem? (b : ItemBehaviour) (k : Nat)
    (xs : List ExpenseData) (i : Nat) :
    (dispatchFrom b k xs)[i]? = (xs[i]?).map (b (k + i)) := by
  induction xs generalizing k i with
  | nil => simp [dispatchFrom]
  | cons x xs ih =>
    cases i with
    | zero => simp [dispatchFrom]
    | succ j =>
      simp only [dispatchFrom, List.getElem?_cons_succ]
      rw [ih (k + 1) j]
      have : k + 1 + j = k + (j + 1) := by omega
      rw [this]

/-! ## Model retraining (main.py lines 341-381)

`retrain_models` (lines 341-360) spawns `retrain_models_background` with
`asyncio.create_task` and immediately returns a literal acknowledgement
dictionary `{"status", "estimated_completion" (now + 2 hours), "message"}`.
There is no job registry, no job identifier, no payload validation and no
per-capability lock anywhere in the handler.

`retrain_models_background` (lines 362-381) awaits, inside one try/except
covering the whole body, the retraining of each of the three known
capability keys present in the payload, in the fixed source order
categorization, fraud_detection, predictions; any exception jumps to the
except branch, which only logs.

Two views are embedded: a pure outcome view (which capabilities were
retrained, what was logged) driven by a failure oracle, and a cooperative
interleaving view of the spawned asyncio tasks for the concurrency claims. -/

/-- The three capability keys the background task checks for, in the order
`retrain_models_background` checks them (main.py lines 368, 372, 376). -/
def known_capabilities : List String :=
  ["categorization", "fraud_detection", "predictions"]

/-- A retraining payload: the Python dict `Dict[str, List[Dict[str, Any]]]`
as an association list from capability key to its training examples (the
examples themselves are opaque to the orchestration layer). -/
def TrainingPayload : Type := List (String × List Nat)

/-- The keys of a retraining payload. -/
def payloadKeys (p : TrainingPayload) : List String := p.map Prod.fst

/-- The capability retrains the background task will attempt for a payload:
the known capability keys present in the payload, in the fixed source
order; unknown keys are simply never tested for (main.py lines 368-377). -/
def targetedCaps (p : TrainingPayload) : List String :=
  known_capabilities.filter (fun c => (payloadKeys p).contains c)

/-- Sequentially awaits the retraining of each capability in the list, under
the single try/except of `retrain_models_background`: the first failing
retrain jumps to the except branch, so the capabilities after it are never
attempted.  Returns the capabilities whose retrain completed and the
capability whose failure was logged, if any. -/
def runRetrains (fails : String → Bool) :
    List String → List String × Option String
  | [] => ([], none)
  | c :: cs =>
    if fails c then ([], some c)
    else
      let r := runRetrains fails cs
      (c :: r.1, r.2)

/-- `retrain_models_background` (main.py lines 362-381): attempts the
targeted capabilities of the payload in order under one try/except; the
outcome is the list of successfully retrained capabilities and the logged
failure, if any.  No job state is written anywhere. -/
def retrain_models_background (fails : String → Bool) (p : TrainingPayload) :
    List String × Option String :=
  runRetrains fails (targetedCaps p)

/-- The acknowledgement dictionary returned by `/api/v1/retrain-models`
(main.py lines 353-357): a status string, an estimated completion time
(submission time plus two hours) and a message.  It carries no job
identifier. -/
structure RetrainResponse where
  status : String
  estimated_completion : Nat
  message : String
  deriving DecidableEq, Repr

/-- `retrain_models` (main.py lines 341-360): spawns the background task for
the payload (returned unexecuted as the second component) and immediately
returns the literal acknowledgement; the except branch (HTTP 500) is
unreachable because spawning a task does not raise.  `now` is the clock
read by `datetime.utcnow()`, in hours. -/
def retrain_models (now : Nat) (training_data : TrainingPayload) :
    Except Nat (RetrainResponse × TrainingPayload) :=
  Except.ok
    ({ status := "retraining_started"
     , estimated_completion := now + 2
     , message := "Model retraining initiated successfully" },
     training_data)

/-- One spawned `retrain_models_background` asyncio task, seen at its await
points: whether the task body has started executing, and the capability
retrains it has not yet completed, in execution order. -/
structure RetrainTask where
  started : Bool
  remaining : List String
  deriving DecidableEq, Repr

/-- A task is running when its body has begun executing and it still has a
capability retrain in flight or pending. -/
def RetrainTask.running (t : RetrainTask) : Bool :=
  t.started && !t.remaining.isEmpty

/-- One observable scheduler event of the retraining subsystem: a client
submission to `/api/v1/retrain-models` (which `asyncio.create_task`s a new
background task, main.py line 351), or the event loop advancing task `i`
past its next await point. -/
inductive SchedEvent where
  | submit (p : TrainingPayload)
  | step (i : Nat)

/-- Advancing a task one await point: a not-yet-started task enters the body
of `retrain_models_background` and begins its first capability retrain; a
started task completes its current capability retrain. -/
def stepTask (t : RetrainTask) : RetrainTask :=
  if t.started then { t with remaining := t.remaining.tail }
  else { t with started := true }

/-- The scheduler state transition for one event.  A submission appends a
new task for the payload's targeted capabilities — `asyncio.create_task`
schedules it unconditionally, with no check of existing tasks; a step
advances the addressed task (out-of-range steps are no-ops). -/
def applyEvent (s : List RetrainTask) : SchedEvent → List RetrainTask
  | SchedEvent.submit p => s ++ [{ started := false, remaining := targetedCaps p }]
  | SchedEvent.step i =>
    match s[i]? with
    | some t => s.set i (stepTask t)
    | none => s

/-- The task list reached from an idle system by a sequence of scheduler
events. -/
def runSched (events : List SchedEvent) : List RetrainTask :=
  events.foldl applyEvent []

/-! ## Transient receipt artifacts (main.py lines 230-290)

`validate_receipt` (lines 230-259) and `enhanced_ocr_processing` (lines
261-290) both store the upload at the literal path `f"/tmp/{file.filename}"`,
await a capability call on that path, then `os.remove` the file and return.
The try/except around each body converts any exception into HTTP 500 — and
the `os.remove` sits inside the try block after the capability call, with
no finally clause, so the except path performs no removal.  Filesystem
effects are recorded as an explicit event trace; the capability providers
(`services/receipt_validation_service.py`, `services/ocr_service.py`, not
under src/) are oracle parameters that either return a value or raise. -/

/-- One filesystem effect of a receipt endpoint: storing the upload at a
path, or deleting the file at a path. -/
inductive FsEvent where
  | write (path : String)
  | remove (path : String)
  deriving DecidableEq, Repr

/-- The storage path assigned to an upload: the literal f-string
`f"/tmp/{file.filename}"` (main.py lines 245 and 276). -/
def tmpPath (filename : String) : String := "/tmp/" ++ filename

/-- `validate_receipt` (main.py lines 230-259): writes the upload to
`tmpPath filename`, awaits `receipt_validation_service.validate_receipt` on
it (`cap`, raising when `Except.error`), and only on normal return removes
the file; an exception jumps to the except branch (HTTP 500) past the
removal. -/
def validate_receipt {α : Type} (cap : Except Unit α) (filename : String) :
    Except Nat α × List FsEvent :=
  match cap with
  | Except.error _ =>
    (Except.error 500, [FsEvent.write (tmpPath filename)])
  | Except.ok v =>
    (Except.ok v,
     [FsEvent.write (tmpPath filename), FsEvent.remove (tmpPath filename)])

/-- `enhanced_ocr_processing` (main.py lines 261-290): identical lifecycle
with `ocr_service.process_receipt(file_path, enhance_image)` as the
capability call. -/
def enhanced_ocr_processing {α : Type} (cap : Bool → Except Unit α)
    (enhance_image : Bool) (filename : String) :
    Except Nat α × List FsEvent :=
  match cap enhance_image with
  | Except.error _ =>
    (Except.error 500, [FsEvent.write (tmpPath filename)])
  | Except.ok v =>
    (Except.ok v,
     [FsEvent.write (tmpPath filename), FsEvent.remove (tmpPath filename)])

/-- Whether a filesystem event is a deletion. -/
def FsEvent.isRemove : FsEvent → Bool
  | FsEvent.remove _ => true
  | FsEvent.write _ => false

/-- How many deletions a trace performs. -/
def removeCount (evs : List FsEvent) : Nat :=
  (evs.filter FsEvent.isRemove).length

/-- The storage paths a trace writes to, in order. -/
def writePaths (evs : List FsEvent) : List String :=
  evs.filterMap (fun e =>
    match e with
    | FsEvent.write p => some p
    | FsEvent.remove _ => none)

/-! ## Real-time analysis sessions (`websocket_real_time_analysis`,
main.py lines 385-408)

After `accept`, the handler loops: `receive_json`, parse into
`ExpenseData(**data)`, await categorization and fraud analysis, `send_json`
the combined response.  One try/except wraps the whole loop; any exception —
a parse failure on a structurally invalid message just like a transport
framing error from `receive_json` — leaves the loop, logs, and closes the
socket.  No error message is ever sent.  A session is modelled by the list
of inbound messages the client supplies and the trace of session events the
handler emits; an exhausted message list is a client that is still
connected, the session parked awaiting the next message. -/

/-- One inbound websocket message, as the handler can distinguish them: a
structurally valid `ExpenseData` payload, a structurally invalid one (on
which `ExpenseData(**data)` raises), or a transport framing error (on which
`receive_json` itself raises). -/
inductive InMsg where
  | valid (e : ExpenseData)
  | malformed
  | framingError
  deriving DecidableEq, Repr

/-- One observable session event.  `sendError` — a structured error message
sent back to the client — is part of the vocabulary so that the spec's
malformed-input behaviour is statable; the source never emits it. -/
inductive WsEvent where
  | accept
  | recv
  | send
  | sendError
  | close
  deriving DecidableEq, Repr

/-- The while-loop of the handler (main.py lines 392-405) under its
try/except (lines 391, 406-408): a valid message is received, analysed and
answered, and the loop continues; a malformed message or a framing error
raises out of the loop, which logs and closes — the remaining messages are
never received. -/
def wsLoop : List InMsg → List WsEvent
  | [] => []
  | InMsg.valid _ :: rest => WsEvent.recv :: WsEvent.send :: wsLoop rest
  | InMsg.malformed :: _ => [WsEvent.recv, WsEvent.close]
  | InMsg.framingError :: _ => [WsEvent.recv, WsEvent.close]

/-- `websocket_real_time_analysis` (main.py lines 385-408): accept the
connection, then run the receive/analyse/send loop on the inbound
messages. -/
def websocket_real_time_analysis (msgs : List InMsg) : List WsEvent :=
  WsEvent.accept :: wsLoop msgs

/-- The event trace of `n` completed request/response exchanges. -/
def exchanges : Nat → List WsEvent
  | 0 => []
  | n + 1 => WsEvent.recv :: WsEvent.send :: exchanges n

/-- Strict request/response pairing checker: scanning the trace with the
number of received-but-unanswered requests, a new receive is admissible only
when no response is outstanding; responses (normal or error) settle the
outstanding request; accept and close are neutral. -/
def pairedFrom : Nat → List WsEvent → Bool
  | _, [] => true
  | outstanding, ev :: rest =>
    match ev with
    | WsEvent.recv =>
      if outstanding = 0 then pairedFrom 1 rest else false
    | WsEvent.send => pairedFrom (outstanding - 1) rest
    | WsEvent.sendError => pairedFrom (outstanding - 1) rest
    | WsEvent.accept => pairedFrom outstanding rest
    | WsEvent.close => pairedFrom outstanding rest

end ExpenseAI

namespace ExpenseAI

/-- C10: the `/health` endpoint returns status "healthy" with all six
capabilities reported "active", and its response is constant in the state of
every capability provider: only the timestamp input can vary the response. -/
theorem health_check_constant_healthy :
    ∀ (s s' : ServicesState) (now : String),
      health_check s now = health_check s' now ∧
      (health_check s now).status = "healthy" ∧
      (health_check s now).services =
        [ ("categorization", "active")
        , ("fraud_detection", "active")
        , ("predictive_analytics", "active")
        , ("receipt_validation", "active")
        , ("auto_tagging", "active")
        , ("ocr", "active") ] := by
  intro s s' now
  exact ⟨rfl, rfl, rfl⟩

/-- C9: a forecast horizon in [1,12] is accepted and invokes the forecasting
capability exactly once with the given arguments; horizons 0 and 13 are each
rejected as an `InvalidRequest` with no capability invocation at all. -/
theorem predict_budget_horizon_validation :
    ∀ (cap : List ExpenseData → Int → Int) (hist : List ExpenseData)
      (m : Int), 1 ≤ m → m ≤ 12 →
      (predict_budget cap hist m =
        (Except.ok (cap hist m), [⟨hist, m⟩]) ∧
       predict_budget cap hist 0 = (Except.error "InvalidRequest", []) ∧
       predict_budget cap hist 13 = (Except.error "InvalidRequest", [])) := by
  intro cap hist m h1 h2
  refine ⟨?_, ?_, ?_⟩
  · simp [predict_budget, h1, h2]
  · simp [predict_budget]
  · simp [predict_budget]

/-- C9 witness: at horizon 5 with a concrete capability oracle, the request
is accepted with one capability call, and horizons 0 and 13 are rejected. -/
theorem predict_budget_horizon_validation_witness :
    predict_budget (fun _ m => m * 100) [] 5 =
      (Except.ok 500, [⟨[], 5⟩]) ∧
    predict_budget (fun _ m => m * 100) [] 0 =
      (Except.error "InvalidRequest", []) ∧
    predict_budget (fun _ m => m * 100) [] 13 =
      (Except.error "InvalidRequest", []) := by
  have h := predict_budget_horizon_validation (fun _ m => m * 100) [] 5
    (by decide) (by decide)
  exact ⟨h.1, h.2.1, h.2.2⟩

/-- C1: a batch of N expenses yields exactly N outcome entries, in input
order (the entry at index i is the outcome of item i); and when two
behaviours differ at most at one item position j — e.g. item j fails or
times out under one and not the other — every sibling position keeps the
same outcome, so one item's failure is confined to its own index. -/
theorem batch_categorize_order_and_isolation
    (b b' : ItemBehaviour) (xs : List ExpenseData) (j : Nat)
    (hagree : ∀ i, i ≠ j → b i = b' i) :
    (∃ rs, batch_categorize_expenses b xs = Except.ok rs ∧
      rs.length = xs.length ∧
      (∀ i, rs[i]? = (xs[i]?).map (b i)) ∧
      (∃ rs', batch_categorize_expenses b' xs = Except.ok rs' ∧
        ∀ i, i ≠ j → rs[i]? = rs'[i]?)) := by
  refine ⟨batch_predict b xs, rfl, ?_, ?_, batch_predict b' xs, rfl, ?_⟩
  · exact dispatchFrom_length b 0 xs
  · intro i
    have h := dispatchFrom_getElem? b 0 xs i
    simpa using h
  · intro i hij
    have h := dispatchFrom_getElem? b 0 xs i
    have h' := dispatchFrom_getElem? b' 0 xs i
    simp only [Nat.zero_add] at h h'
    simp only [batch_predict]
    rw [h, h', hagree i hij]

/-- C1 witness: a concrete batch of three expenses where item 1's call times
out under `bT` but succeeds under `bO`; the dispatch output has three
entries, item 1 reports the timeout at its own index, and items 0 and 2 have
the same outcome under both behaviours. -/
theorem batch_categorize_order_and_isolation_witness :
    (∃ rs, batch_categorize_expenses
        (fun i _ => if i = 1 then ItemResult.capabilityTimeout
          else ItemResult.ok ⟨"travel", 90⟩)
        [⟨"taxi", 30, "USD", "UberX", "2024-01-02", "alice"⟩,
         ⟨"hotel", 200, "USD", "Hilton", "2024-01-03", "alice"⟩,
         ⟨"meal", 25, "USD", "Deli", "2024-01-04", "bob"⟩] = Except.ok rs ∧
      rs.length = 3 ∧
      (∀ i, rs[i]? =
        (([⟨"taxi", 30, "USD", "UberX", "2024-01-02", "alice"⟩,
           ⟨"hotel", 200, "USD", "Hilton", "2024-01-03", "alice"⟩,
           ⟨"meal", 25, "USD", "Deli", "2024-01-04", "bob"⟩] :
             List ExpenseData)[i]?).map
          ((fun i _ => if i = 1 then ItemResult.capabilityTimeout
            else ItemResult.ok ⟨"travel", 90⟩) i)) ∧
      (∃ rs', batch_categorize_expenses
          (fun _ _ => ItemResult.ok (⟨"travel", 90⟩ : CategoryPrediction))
          [⟨"taxi", 30, "USD", "UberX", "2024-01-02", "alice"⟩,
           ⟨"hotel", 200, "USD", "Hilton", "2024-01-03", "alice"⟩,
           ⟨"meal", 25, "USD", "Deli", "2024-01-04", "bob"⟩] = Except.ok rs' ∧
        ∀ i, i ≠ 1 → rs[i]? = rs'[i]?)) := by
  exact batch_categorize_order_and_isolation
    (fun i _ => if i = 1 then ItemResult.capabilityTimeout
      else ItemResult.ok ⟨"travel", 90⟩)
    (fun _ _ => ItemResult.ok ⟨"travel", 90⟩)
    [⟨"taxi", 30, "USD", "UberX", "2024-01-02", "alice"⟩,
     ⟨"hotel", 200, "USD", "Hilton", "2024-01-03", "alice"⟩,
     ⟨"meal", 25, "USD", "Deli", "2024-01-04", "bob"⟩] 1
    (by intro i hij; funext e; simp [hij])

/-- C2 counterexample: the claim — no two retraining tasks that share a
targeted capability are ever running concurrently — is false: after two
submissions of a payload targeting categorization and two event-loop steps,
tasks 0 and 1 are both running with the categorization retrain in flight. -/
theorem retrain_concurrent_same_capability_counterexample :
    ¬ (∀ (events : List SchedEvent) (i j : Nat), i < j →
        ∀ ti tj, (runSched events)[i]? = some ti →
          (runSched events)[j]? = some tj →
          ti.running = true → tj.running = true →
          ∀ c, c ∈ ti.remaining → c ∉ tj.remaining) := by
  intro h
  exact h [SchedEvent.submit [("categorization", [])],
           SchedEvent.submit [("categorization", [])],
           SchedEvent.step 0, SchedEvent.step 1]
      0 1 (by decide)
      ⟨true, ["categorization"]⟩ ⟨true, ["categorization"]⟩
      rfl rfl rfl rfl "categorization" (by decide) (by decide)

/-- C2 (amended): submissions are never queued behind an earlier job for the
same capability: each submission immediately appends an independent task,
and for any payload targeting at least one known capability, submitting it
twice and letting the event loop advance each task once leaves both tasks
running concurrently, with the same capability retrain in flight in both. -/
theorem retrain_no_serialization (p : TrainingPayload)
    (h : targetedCaps p ≠ []) :
    ∃ c t0 t1,
      (runSched [SchedEvent.submit p, SchedEvent.submit p,
        SchedEvent.step 0, SchedEvent.step 1])[0]? = some t0 ∧
      (runSched [SchedEvent.submit p, SchedEvent.submit p,
        SchedEvent.step 0, SchedEvent.step 1])[1]? = some t1 ∧
      t0.running = true ∧ t1.running = true ∧
      c ∈ t0.remaining ∧ c ∈ t1.remaining := by
  cases htc : targetedCaps p with
  | nil => exact absurd htc h
  | cons c cs =>
    refine ⟨c, ⟨true, c :: cs⟩, ⟨true, c :: cs⟩, ?_, ?_, rfl, rfl,
      List.mem_cons_self c cs, List.mem_cons_self c cs⟩
    · simp [runSched, applyEvent, stepTask, htc]
    · simp [runSched, applyEvent, stepTask, htc]

/-- C2 witness: for the concrete payload naming only categorization, the
double-submission trace exhibits two concurrently running tasks sharing the
categorization retrain. -/
theorem retrain_no_serialization_witness :
    ∃ c t0 t1,
      (runSched [SchedEvent.submit [("categorization", [])],
        SchedEvent.submit [("categorization", [])],
        SchedEvent.step 0, SchedEvent.step 1])[0]? = some t0 ∧
      (runSched [SchedEvent.submit [("categorization", [])],
        SchedEvent.submit [("categorization", [])],
        SchedEvent.step 0, SchedEvent.step 1])[1]? = some t1 ∧
      t0.running = true ∧ t1.running = true ∧
      c ∈ t0.remaining ∧ c ∈ t1.remaining :=
  retrain_no_serialization [("categorization", [])] (by decide)

/-- C3 counterexample: the claim — a sibling capability B whose retrain
would succeed is still retrained when capability A fails — is false: with a
payload targeting categorization and fraud_detection where only
categorization fails, fraud_detection is never retrained. -/
theorem retrain_background_no_isolation_counterexample :
    ¬ (∀ (fails : String → Bool) (p : TrainingPayload) (b : String),
        b ∈ targetedCaps p → fails b = false →
        b ∈ (retrain_models_background fails p).1) := by
  intro h
  exact absurd
    (h (fun c => c == "categorization")
      [("categorization", []), ("fraud_detection", [])]
      "fraud_detection" (by decide) (by decide))
    (by decide)

/-- Sequential retraining under one try/except completes exactly the
capabilities before the first failure and logs that first failure. -/
theorem runRetrains_eq (fails : String → Bool) (cs : List String) :
    runRetrains fails cs =
      (cs.takeWhile (fun c => !fails c),
       (cs.dropWhile (fun c => !fails c)).head?) := by
  induction cs with
  | nil => rfl
  | cons c cs ih =>
    cases hc : fails c with
    | true => simp [runRetrains, hc]
    | false => simp [runRetrains, hc, ih]

/-- C3 (amended): a capability retraining failure aborts the rest of the
submission: the background run retrains exactly the targeted capabilities
strictly before the first failing one, the first failing capability is the
only recorded (logged) failure, and the capabilities after it are skipped —
there is no per-capability job state recording independent outcomes. -/
theorem retrain_background_stops_at_first_failure
    (fails : String → Bool) (p : TrainingPayload) :
    retrain_models_background fails p =
      ((targetedCaps p).takeWhile (fun c => !fails c),
       ((targetedCaps p).dropWhile (fun c => !fails c)).head?) :=
  runRetrains_eq fails (targetedCaps p)

/-- C8 counterexample: the claim — a submission is validated to reference at
least one known capability — is false: the payload naming only
unknown_capability targets no known capability yet is accepted with the
standard acknowledgement, no error. -/
theorem retrain_submit_no_validation_counterexample :
    ¬ (∀ (now : Nat) (p : TrainingPayload), targetedCaps p = [] →
        ∀ r, retrain_models now p ≠ Except.ok r) := by
  intro h
  exact h 0 [("unknown_capability", [])] (by decide)
    ({ status := "retraining_started", estimated_completion := 2,
       message := "Model retraining initiated successfully" },
     [("unknown_capability", [])]) rfl

/-- C8 (amended): the submission path performs no validation and returns
immediately with a fixed acknowledgement (status, submission time plus two
hours, message) that carries no job identifier and no job state, for every
payload — including one naming no known capability; the spawned background
task targets exactly the known capability keys present in the payload, so
unknown keys are ignored without error, and a payload naming categorization
and unknown_capability targets only categorization. -/
theorem retrain_submit_accepts_everything (now : Nat) (p : TrainingPayload) :
    retrain_models now p =
      Except.ok
        ({ status := "retraining_started"
         , estimated_completion := now + 2
         , message := "Model retraining initiated successfully" }, p) ∧
    (∀ c, c ∈ targetedCaps p →
      c ∈ known_capabilities ∧ c ∈ payloadKeys p) ∧
    targetedCaps [("categorization", []), ("unknown_capability", [])] =
      ["categorization"] := by
  refine ⟨rfl, ?_, by decide⟩
  intro c hc
  have hm := List.mem_filter.mp hc
  refine ⟨hm.1, ?_⟩
  simpa using hm.2

/-- C8 witness: a submission at hour 7 of the payload naming categorization
and unknown_capability is accepted with the fixed acknowledgement, its
targeted capability categorization is a known payload key, and the unknown
key is ignored. -/
theorem retrain_submit_accepts_everything_witness :
    retrain_models 7 [("categorization", []), ("unknown_capability", [])] =
      Except.ok
        ({ status := "retraining_started"
         , estimated_completion := 9
         , message := "Model retraining initiated successfully" },
         [("categorization", []), ("unknown_capability", [])]) ∧
    ("categorization" ∈ known_capabilities ∧
     "categorization" ∈
       payloadKeys [("categorization", []), ("unknown_capability", [])]) ∧
    targetedCaps [("categorization", []), ("unknown_capability", [])] =
      ["categorization"] := by
  have h := retrain_submit_accepts_everything 7
    [("categorization", []), ("unknown_capability", [])]
  exact ⟨h.1, h.2.1 "categorization" (by decide), h.2.2⟩

/-- C4 counterexample: the claim — every acquired artifact is deleted
exactly once on every exit path of the two receipt endpoints — is false:
when the validation capability raises, the stored file of `validate_receipt`
is deleted zero times. -/
theorem artifact_release_counterexample :
    ¬ (∀ (capV : Except Unit Nat) (capO : Bool → Except Unit Nat)
        (en : Bool) (fn : String),
        removeCount (validate_receipt capV fn).2 = 1 ∧
        removeCount (enhanced_ocr_processing capO en fn).2 = 1) := by
  intro h
  exact absurd
    (h (Except.error ()) (fun _ => Except.ok 0) true "receipt.jpg").1
    (by decide)

/-- C4 (amended): each receipt endpoint deletes its stored artifact exactly
once on the success path; on the path where the consuming capability call
raises, the artifact is deleted zero times (the temporary file leaks), for
both validation and OCR. -/
theorem artifact_release_success_path_only (fn : String) (v w : Nat)
    (en : Bool) :
    removeCount (validate_receipt (Except.ok v) fn).2 = 1 ∧
    removeCount (validate_receipt (Except.error () : Except Unit Nat) fn).2
      = 0 ∧
    removeCount (enhanced_ocr_processing (fun _ => Except.ok w) en fn).2
      = 1 ∧
    removeCount (enhanced_ocr_processing
      (fun _ => (Except.error () : Except Unit Nat)) en fn).2 = 0 :=
  ⟨rfl, rfl, rfl, rfl⟩

/-- C5 counterexample: the claim — two acquisitions supplying the same
suggested file name receive distinct storage paths — is false: a validation
upload and an OCR upload both named receipt.jpg are both stored at
/tmp/receipt.jpg. -/
theorem artifact_path_collision_counterexample :
    ¬ (∀ (fn : String) (capV : Except Unit Nat)
        (capO : Bool → Except Unit Nat) (en : Bool) (p : String),
        p ∈ writePaths (validate_receipt capV fn).2 →
        p ∉ writePaths (enhanced_ocr_processing capO en fn).2) := by
  intro h
  exact h "receipt.jpg" (Except.ok 0) (fun _ => Except.ok 0) true
    "/tmp/receipt.jpg" (by decide) (by decide)

/-- C5 (amended): the storage path of an acquisition is exactly "/tmp/"
followed by the caller-supplied file name, for both receipt endpoints and
independently of the capability outcome; hence uniqueness depends solely on
the caller-supplied name — equal names collide on the same path, and only
distinct names give distinct paths. -/
theorem artifact_path_determined_by_name (fn fn' : String)
    (capV : Except Unit Nat) (capO : Bool → Except Unit Nat) (en : Bool) :
    writePaths (validate_receipt capV fn).2 = [tmpPath fn] ∧
    writePaths (enhanced_ocr_processing capO en fn).2 = [tmpPath fn] ∧
    (tmpPath fn = tmpPath fn' ↔ fn = fn') := by
  refine ⟨?_, ?_, ?_, ?_⟩
  · cases capV with
    | error e => rfl
    | ok v => rfl
  · cases hc : capO en with
    | error e => simp [enhanced_ocr_processing, hc, writePaths]
    | ok v => simp [enhanced_ocr_processing, hc, writePaths]
  · intro hEq
    have hd : (tmpPath fn).data = (tmpPath fn').data := by rw [hEq]
    rw [tmpPath, tmpPath, String.data_append, String.data_append] at hd
    exact String.ext (List.append_cancel_left hd)
  · intro hEq
    rw [hEq]

/-- C6 counterexample: the claim — a malformed inbound message is answered
with a structured error and leaves the session open — is false: a session
whose first message is malformed sends no error and is closed. -/
theorem websocket_malformed_counterexample :
    ¬ (∀ rest : List InMsg,
        WsEvent.sendError ∈
          websocket_real_time_analysis (InMsg.malformed :: rest) ∧
        WsEvent.close ∉
          websocket_real_time_analysis (InMsg.malformed :: rest)) := by
  intro h
  exact absurd (h []).1 (by decide)

/-- The loop answers each leading valid message with one response, then
behaves on the remaining messages as from the start. -/
theorem wsLoop_append_valid (vs : List ExpenseData) (rest : List InMsg) :
    wsLoop (vs.map InMsg.valid ++ rest) =
      exchanges vs.length ++ wsLoop rest := by
  induction vs with
  | nil => rfl
  | cons v vs ih => simp [wsLoop, exchanges, ih]

/-- C6 (amended): the first malformed message — exactly like a transport
framing error — makes the session close without sending any structured
error: after any number of valid exchanges, the trace ends with the faulty
receive and a close, and the messages after the faulty one are never
received. -/
theorem websocket_closes_on_first_bad_message (vs : List ExpenseData)
    (rest : List InMsg) (bad : InMsg)
    (hbad : bad = InMsg.malformed ∨ bad = InMsg.framingError) :
    websocket_real_time_analysis (vs.map InMsg.valid ++ bad :: rest) =
      WsEvent.accept ::
        (exchanges vs.length ++ [WsEvent.recv, WsEvent.close]) := by
  rw [websocket_real_time_analysis, wsLoop_append_valid]
  cases hbad with
  | inl h => rw [h]; rfl
  | inr h => rw [h]; rfl

/-- C6 witness: one valid exchange followed by a malformed message yields
accept, one receive/response pair, the faulty receive, and a close; the
trailing valid message is never received. -/
theorem websocket_closes_on_first_bad_message_witness :
    websocket_real_time_analysis
      [InMsg.valid ⟨"taxi", 30, "USD", "UberX", "2024-01-02", "alice"⟩,
       InMsg.malformed,
       InMsg.valid ⟨"taxi", 30, "USD", "UberX", "2024-01-02", "alice"⟩] =
      [WsEvent.accept, WsEvent.recv, WsEvent.send, WsEvent.recv,
       WsEvent.close] :=
  websocket_closes_on_first_bad_message
    [⟨"taxi", 30, "USD", "UberX", "2024-01-02", "alice"⟩]
    [InMsg.valid ⟨"taxi", 30, "USD", "UberX", "2024-01-02", "alice"⟩]
    InMsg.malformed (Or.inl rfl)

/-- The loop trace is strictly paired from any point with no outstanding
request. -/
theorem wsLoop_paired (msgs : List InMsg) :
    pairedFrom 0 (wsLoop msgs) = true := by
  induction msgs with
  | nil => rfl
  | cons m rest ih =>
    cases m with
    | valid e => simpa [wsLoop, pairedFrom] using ih
    | malformed => rfl
    | framingError => rfl

/-- C7: every session trace — whatever the inbound messages, valid or not —
is strictly request/response paired: a receive is only ever performed when
no earlier request is awaiting its response, so the response to R1 is sent
strictly before R2 is accepted for dispatch and at most one exchange is in
flight per session. -/
theorem websocket_strict_pairing (msgs : List InMsg) :
    pairedFrom 0 (websocket_real_time_analysis msgs) = true := by
  simpa [websocket_real_time_analysis, pairedFrom] using wsLoop_paired msgs

end ExpenseAI
